import Mathlib

/-!
Shallow embedding of the hotel-management core (entity model and persistence
engine) of the repository, together with theorems settling the spec claims.

Entities are modelled as Lean structures whose fields mirror the Python
attributes; `created_date` (set from `datetime.now()` in the constructors) is
modelled by an explicit `now : String` argument wherever the Python code would
read the clock.  Python floats carry no arithmetic here beyond comparison with
zero, so `price_per_room` is modelled as `ℚ`.  The JSON documents backing the
persistence engine are modelled as lists of "dict" structures: one field per
JSON key, with `Option` for the keys the code reads via `dict.get` with a
default.
-/

namespace HotelSystem

/-- The `Hotel` entity (`hotel_system.Hotel`). -/
structure Hotel where
  hotel_id : String
  name : String
  location : String
  total_rooms : Int
  rooms_available : Int
  price_per_room : ℚ
  created_date : String
deriving DecidableEq, Repr

/-- `Hotel._validate_room_counts`. -/
def Hotel.validate_room_counts (h : Hotel) : Bool :=
  (decide (0 < h.total_rooms) && decide (0 ≤ h.rooms_available)) &&
    decide (h.rooms_available ≤ h.total_rooms)

/-- `Hotel._validate_price`. -/
def Hotel.validate_price (h : Hotel) : Bool :=
  decide (0 ≤ h.price_per_room)

/-- `Hotel.validate`: non-empty string fields, room-count consistency, price. -/
def Hotel.validate (h : Hotel) : Bool :=
  h.hotel_id != "" && h.name != "" && h.location != "" &&
    h.validate_room_counts && h.validate_price

/-- Serialized form of a hotel: the JSON object written by `Hotel.to_dict`.
`rooms_available` and `price_per_room` are optional because
`Hotel.from_dict` reads them with `dict.get` defaults. -/
structure HotelDict where
  hotel_id : String
  name : String
  location : String
  total_rooms : Int
  rooms_available : Option Int
  price_per_room : Option ℚ
  created_date : String
deriving DecidableEq, Repr

/-- `Hotel.to_dict`. -/
def Hotel.to_dict (h : Hotel) : HotelDict :=
  { hotel_id := h.hotel_id
    name := h.name
    location := h.location
    total_rooms := h.total_rooms
    rooms_available := some h.rooms_available
    price_per_room := some h.price_per_room
    created_date := h.created_date }

/-- `Hotel.from_dict`: rebuilds a hotel from a dict.  The Python constructor
sets `created_date = datetime.now().isoformat()`; the clock reading is the
explicit `now` argument. -/
def Hotel.from_dict (data : HotelDict) (now : String) : Hotel :=
  { hotel_id := data.hotel_id
    name := data.name
    location := data.location
    total_rooms := data.total_rooms
    rooms_available := data.rooms_available.getD data.total_rooms
    price_per_room := data.price_per_room.getD 0
    created_date := now }

/-- `Hotel.update`: applies only the supplied fields; a `total_rooms` value
below the occupied count causes an early `return False`; otherwise
`rooms_available` is shifted by the same delta and, after `price_per_room`
is applied, the result of `validate()` is returned. -/
def Hotel.update (h : Hotel) (name : Option String) (location : Option String)
    (total_rooms : Option Int) (price_per_room : Option ℚ) : Bool × Hotel :=
  let h1 := match name with
    | some n => { h with name := n }
    | none => h
  let h2 := match location with
    | some l => { h1 with location := l }
    | none => h1
  match total_rooms with
  | some t =>
      if t < h2.total_rooms - h2.rooms_available then (false, h2)
      else
        let diff := t - h2.total_rooms
        let h3 := { h2 with total_rooms := t,
                            rooms_available := h2.rooms_available + diff }
        let h4 := match price_per_room with
          | some p => { h3 with price_per_room := p }
          | none => h3
        (h4.validate, h4)
  | none =>
      let h4 := match price_per_room with
        | some p => { h2 with price_per_room := p }
        | none => h2
      (h4.validate, h4)

/-- `Hotel.reserve_room`. -/
def Hotel.reserve_room (h : Hotel) : Bool × Hotel :=
  if 0 < h.rooms_available then
    (true, { h with rooms_available := h.rooms_available - 1 })
  else (false, h)

/-- `Hotel.cancel_reservation`. -/
def Hotel.cancel_reservation (h : Hotel) : Bool × Hotel :=
  if h.rooms_available < h.total_rooms then
    (true, { h with rooms_available := h.rooms_available + 1 })
  else (false, h)

/-- The `Customer` entity (`hotel_system.Customer`). -/
structure Customer where
  customer_id : String
  name : String
  email : String
  phone : String
  created_date : String
deriving DecidableEq, Repr

/-- `Customer.validate`. -/
def Customer.validate (c : Customer) : Bool :=
  c.customer_id != "" && c.name != "" && c.email != "" &&
    c.email.toList.contains '@' && c.phone != ""

/-- Serialized form of a customer (`Customer.to_dict` output). -/
structure CustomerDict where
  customer_id : String
  name : String
  email : String
  phone : String
  created_date : String
deriving DecidableEq, Repr

/-- `Customer.to_dict`. -/
def Customer.to_dict (c : Customer) : CustomerDict :=
  { customer_id := c.customer_id
    name := c.name
    email := c.email
    phone := c.phone
    created_date := c.created_date }

/-- `Customer.from_dict`; `now` is the constructor's `datetime.now()` reading. -/
def Customer.from_dict (data : CustomerDict) (now : String) : Customer :=
  { customer_id := data.customer_id
    name := data.name
    email := data.email
    phone := data.phone
    created_date := now }

/-- The `Reservation` entity (`hotel_system.Reservation`). -/
structure Reservation where
  reservation_id : String
  customer_id : String
  hotel_id : String
  check_in : String
  check_out : String
  status : String
  created_date : String
deriving DecidableEq, Repr

/-- Gregorian leap-year test, as `datetime` uses. -/
def isLeapYear (y : Nat) : Bool :=
  (y % 4 == 0 && y % 100 != 0) || y % 400 == 0

/-- Days in a month, as `datetime` uses. -/
def daysInMonth (y m : Nat) : Nat :=
  if m == 2 then (if isLeapYear y then 29 else 28)
  else if m == 4 || m == 6 || m == 9 || m == 11 then 30
  else 31

/-- Numeric value of a decimal digit character. -/
def digitVal (c : Char) : Nat := c.toNat - 48

/-- Model of `datetime.fromisoformat` restricted to the date-only
`YYYY-MM-DD` form the system uses: exactly ten characters, digits and
dashes in place, month in `1..12`, day within the month, year in
`1..9999` (Python's `MINYEAR`/`MAXYEAR`).  Returns `none` where Python
raises `ValueError`. -/
def parseIsoDate (s : String) : Option (Nat × Nat × Nat) :=
  match s.toList with
  | [y1, y2, y3, y4, c1, m1, m2, c2, d1, d2] =>
      if (y1.isDigit && y2.isDigit && y3.isDigit && y4.isDigit &&
          c1 == '-' && m1.isDigit && m2.isDigit && c2 == '-' &&
          d1.isDigit && d2.isDigit) then
        let y := ((digitVal y1 * 10 + digitVal y2) * 10 + digitVal y3) * 10 +
          digitVal y4
        let m := digitVal m1 * 10 + digitVal m2
        let d := digitVal d1 * 10 + digitVal d2
        if (decide (1 ≤ y) && decide (1 ≤ m) && decide (m ≤ 12) &&
            decide (1 ≤ d) && decide (d ≤ daysInMonth y m)) then
          some (y, m, d)
        else none
      else none
  | _ => none

/-- Chronological order on parsed dates. -/
def dateLt : Nat × Nat × Nat → Nat × Nat × Nat → Bool
  | (y1, m1, d1), (y2, m2, d2) =>
      decide (y1 < y2) ||
        (y1 == y2 && (decide (m1 < m2) || (m1 == m2 && decide (d1 < d2))))

/-- `Reservation._validate_string_fields`. -/
def Reservation.validate_string_fields (r : Reservation) : Bool :=
  r.reservation_id != "" && r.customer_id != "" && r.hotel_id != "" &&
    r.check_in != "" && r.check_out != ""

/-- `Reservation._validate_dates`: both dates parse and `check_in` is
strictly before `check_out`; a parse failure yields `False`. -/
def Reservation.validate_dates (r : Reservation) : Bool :=
  match parseIsoDate r.check_in, parseIsoDate r.check_out with
  | some a, some b => dateLt a b
  | _, _ => false

/-- `Reservation.validate`. -/
def Reservation.validate (r : Reservation) : Bool :=
  r.validate_string_fields &&
    (r.status == "active" || r.status == "cancelled") &&
    r.validate_dates

/-- Serialized form of a reservation (`Reservation.to_dict` output);
`status` is optional because `from_dict` reads it with a
`.get('status', 'active')` default, and `get_reservations_by_hotel`
reads it with a bare `.get('status')`. -/
structure ReservationDict where
  reservation_id : String
  customer_id : String
  hotel_id : String
  check_in : String
  check_out : String
  status : Option String
  created_date : String
deriving DecidableEq, Repr

/-- `Reservation.to_dict`. -/
def Reservation.to_dict (r : Reservation) : ReservationDict :=
  { reservation_id := r.reservation_id
    customer_id := r.customer_id
    hotel_id := r.hotel_id
    check_in := r.check_in
    check_out := r.check_out
    status := some r.status
    created_date := r.created_date }

/-- `Reservation.from_dict`; `now` is the constructor's clock reading. -/
def Reservation.from_dict (data : ReservationDict) (now : String) : Reservation :=
  { reservation_id := data.reservation_id
    customer_id := data.customer_id
    hotel_id := data.hotel_id
    check_in := data.check_in
    check_out := data.check_out
    status := data.status.getD "active"
    created_date := now }

/-- `Reservation.cancel`. -/
def Reservation.cancel (r : Reservation) : Bool × Reservation :=
  if r.status == "active" then (true, { r with status := "cancelled" })
  else (false, r)

/-!
Persistence engine (`persistence.DataPersistence`).  Each collection is a
single JSON array of dicts; every operation is modelled as a pure function
from the stored list to a success flag and the list left on disk
afterwards.  File I/O itself (open/json.dump) is assumed to succeed, so
`_write_json_file` is the identity on the in-memory list.
-/

/-- `DataPersistence.create_hotel`: reject an invalid hotel, reject a
duplicate `hotel_id`, otherwise append the serialized hotel. -/
def create_hotel (hotel : Hotel) (hotels : List HotelDict) :
    Bool × List HotelDict :=
  if !hotel.validate then (false, hotels)
  else if hotels.any (fun h => h.hotel_id == hotel.hotel_id) then
    (false, hotels)
  else (true, hotels ++ [hotel.to_dict])

/-- The update loop shared by the three `update_*` operations: replace the
first record whose key matches, by position; `none` when no record matches. -/
def replaceFirst {α : Type} (key : α → String) (k : String) (d : α) :
    List α → Option (List α)
  | [] => none
  | x :: xs =>
      if key x == k then some (d :: xs)
      else (replaceFirst key k d xs).map (fun ys => x :: ys)

/-- `DataPersistence.update_hotel`: reject an invalid hotel; replace the
first record matching `hotel_id` and rewrite, else fail "not found". -/
def update_hotel (hotel_id : String) (hotel : Hotel)
    (hotels : List HotelDict) : Bool × List HotelDict :=
  if !hotel.validate then (false, hotels)
  else match replaceFirst HotelDict.hotel_id hotel_id hotel.to_dict hotels with
    | some hs => (true, hs)
    | none => (false, hotels)

/-- `DataPersistence.delete_hotel`: filter out every record whose
`hotel_id` matches; succeed iff the list got shorter. -/
def delete_hotel (hotel_id : String) (hotels : List HotelDict) :
    Bool × List HotelDict :=
  let filtered := hotels.filter (fun h => h.hotel_id != hotel_id)
  if filtered.length < hotels.length then (true, filtered)
  else (false, hotels)

/-- `DataPersistence.create_customer`. -/
def create_customer (customer : Customer) (customers : List CustomerDict) :
    Bool × List CustomerDict :=
  if !customer.validate then (false, customers)
  else if customers.any (fun c => c.customer_id == customer.customer_id) then
    (false, customers)
  else (true, customers ++ [customer.to_dict])

/-- `DataPersistence.update_customer`. -/
def update_customer (customer_id : String) (customer : Customer)
    (customers : List CustomerDict) : Bool × List CustomerDict :=
  if !customer.validate then (false, customers)
  else match replaceFirst CustomerDict.customer_id customer_id
      customer.to_dict customers with
    | some cs => (true, cs)
    | none => (false, customers)

/-- `DataPersistence.delete_customer`. -/
def delete_customer (customer_id : String) (customers : List CustomerDict) :
    Bool × List CustomerDict :=
  let filtered := customers.filter (fun c => c.customer_id != customer_id)
  if filtered.length < customers.length then (true, filtered)
  else (false, customers)

/-- `DataPersistence.create_reservation`. -/
def create_reservation (reservation : Reservation)
    (reservations : List ReservationDict) : Bool × List ReservationDict :=
  if !reservation.validate then (false, reservations)
  else if reservations.any
      (fun r => r.reservation_id == reservation.reservation_id) then
    (false, reservations)
  else (true, reservations ++ [reservation.to_dict])

/-- `DataPersistence.update_reservation`. -/
def update_reservation (reservation_id : String) (reservation : Reservation)
    (reservations : List ReservationDict) : Bool × List ReservationDict :=
  if !reservation.validate then (false, reservations)
  else match replaceFirst ReservationDict.reservation_id reservation_id
      reservation.to_dict reservations with
    | some rs => (true, rs)
    | none => (false, reservations)

/-- `DataPersistence.delete_reservation`. -/
def delete_reservation (reservation_id : String)
    (reservations : List ReservationDict) : Bool × List ReservationDict :=
  let filtered :=
    reservations.filter (fun r => r.reservation_id != reservation_id)
  if filtered.length < reservations.length then (true, filtered)
  else (false, reservations)

/-- `DataPersistence.get_reservations_by_hotel`: keep the records whose raw
`hotel_id` matches and whose raw `status` key equals `'active'`, deserialize
them, and keep only those that validate.  `now` is the clock reading used by
`Reservation.from_dict`'s constructor call. -/
def get_reservations_by_hotel (hotel_id : String) (now : String) :
    List ReservationDict → List Reservation
  | [] => []
  | d :: ds =>
      let rest := get_reservations_by_hotel hotel_id now ds
      if d.hotel_id == hotel_id && d.status == some "active" then
        let r := Reservation.from_dict d now
        if r.validate then r :: rest else rest
      else rest

/-- `DataPersistence.get_reservations_by_customer`: keep the records whose
raw `customer_id` matches, deserialize, and keep only those that validate. -/
def get_reservations_by_customer (customer_id : String) (now : String) :
    List ReservationDict → List Reservation
  | [] => []
  | d :: ds =>
      let rest := get_reservations_by_customer customer_id now ds
      if d.customer_id == customer_id then
        let r := Reservation.from_dict d now
        if r.validate then r :: rest else rest
      else rest

/-- Iteration harness for the spec property on `reserve_room`: perform `n`
successive calls, conjoining the success flags. -/
def Hotel.reserveRepeat : Nat → Hotel → Bool × Hotel
  | 0, h => (true, h)
  | n + 1, h =>
      let p := h.reserve_room
      let q := Hotel.reserveRepeat n p.snd
      (p.fst && q.fst, q.snd)

/-- Iteration harness for the spec property on `cancel_reservation`. -/
def Hotel.cancelRepeat : Nat → Hotel → Bool × Hotel
  | 0, h => (true, h)
  | n + 1, h =>
      let p := h.cancel_reservation
      let q := Hotel.cancelRepeat n p.snd
      (p.fst && q.fst, q.snd)

/-- Concrete hotel from the spec scenario (H001, 100 rooms, price 150). -/
def wHotel : Hotel :=
  ⟨"H001", "Grand", "City", 100, 100, 150, "2020-01-01T00:00:00"⟩

/-- The scenario hotel after three reservations (97 rooms available). -/
def wHotel97 : Hotel :=
  ⟨"H001", "Grand", "City", 100, 97, 150, "2020-01-01T00:00:00"⟩

/-- A small hotel used to drive the reserve/cancel iteration witnesses. -/
def wHotelSmall : Hotel :=
  ⟨"H002", "Inn", "Town", 5, 2, 80, "2020-01-01T00:00:00"⟩

/-- A concrete valid customer. -/
def wCustomer : Customer :=
  ⟨"C001", "Ana", "ana@mail.com", "555-1234", "2020-01-01T00:00:00"⟩

/-- A concrete valid, active reservation. -/
def wRes : Reservation :=
  ⟨"R001", "C001", "H001", "2026-03-01", "2026-03-05", "active",
    "2020-01-01T00:00:00"⟩

/-- A concrete cancelled reservation. -/
def wResCancelled : Reservation :=
  ⟨"R002", "C001", "H001", "2026-03-01", "2026-03-05", "cancelled",
    "2020-01-01T00:00:00"⟩

/-- First stored hotel record with key `H001` (for the delete-duplicates
counterexample). -/
def dupDict1 : HotelDict :=
  ⟨"H001", "First", "City", 10, some 10, some 0, "t1"⟩

/-- Second stored hotel record with the same key `H001`. -/
def dupDict2 : HotelDict :=
  ⟨"H001", "Second", "City", 10, some 10, some 0, "t2"⟩

/-- A stored reservation record for hotel `H001`, status `active`, whose
`check_in` does not parse as a date (so the rebuilt reservation fails
validation). -/
def badResDict : ReservationDict :=
  ⟨"R009", "C001", "H001", "bad-date", "2026-03-05", some "active", "t"⟩

/-- A second reservation for hotel `H001` (used in the cancel-one-of-two
scenario). -/
def wRes2 : Reservation :=
  ⟨"R010", "C002", "H001", "2026-04-01", "2026-04-05", "active",
    "2020-01-01T00:00:00"⟩

/-!  Theorems settling the claims.  -/

/-- C2: `Hotel.validate` is true exactly when `hotel_id`, `name` and
`location` are non-empty, `0 < total_rooms`,
`0 ≤ rooms_available ≤ total_rooms` and `0 ≤ price_per_room`. -/
theorem hotel_validate_iff (h : Hotel) :
    h.validate = true ↔
      h.hotel_id ≠ "" ∧ h.name ≠ "" ∧ h.location ≠ "" ∧
      0 < h.total_rooms ∧ 0 ≤ h.rooms_available ∧
      h.rooms_available ≤ h.total_rooms ∧ 0 ≤ h.price_per_room := by
  simp [Hotel.validate, Hotel.validate_room_counts, Hotel.validate_price,
    and_assoc]

/-- C1 counterexample: deserializing a serialized hotel at a later clock
reading yields an entity whose `created_date` differs from the original,
so `from_map(to_map(E)) = E` with full field equality fails. -/
theorem roundtrip_full_equality_counterexample :
    Hotel.from_dict wHotel.to_dict "2024-01-02T00:00:00" ≠ wHotel := by
  decide

/-- C1 (amended): for each entity kind, `from_dict (to_dict e)` restores
every field — in particular the unique key — except `created_date`, which
is set to the clock reading at deserialization time. -/
theorem roundtrip_amended (h : Hotel) (c : Customer) (r : Reservation)
    (now : String) :
    Hotel.from_dict h.to_dict now = { h with created_date := now } ∧
    Customer.from_dict c.to_dict now = { c with created_date := now } ∧
    Reservation.from_dict r.to_dict now = { r with created_date := now } :=
  ⟨rfl, rfl, rfl⟩

/-- C9: `Reservation.cancel` succeeds exactly from status `active`, setting
status to `cancelled`; on a cancelled reservation it returns `false` and
changes nothing, so the status only ever moves `active → cancelled`. -/
theorem reservation_cancel_spec (r : Reservation) :
    (r.cancel.fst = true ↔ r.status = "active") ∧
    (r.status = "active" →
      r.cancel = (true, { r with status := "cancelled" })) ∧
    (r.status = "cancelled" → r.cancel = (false, r)) := by
  by_cases hs : r.status = "active" <;>
    simp [Reservation.cancel, hs]

/-- Witness for C9 at a concrete active and a concrete cancelled
reservation. -/
theorem reservation_cancel_spec_witness :
    wRes.cancel = (true, { wRes with status := "cancelled" }) ∧
    wResCancelled.cancel = (false, wResCancelled) :=
  ⟨(reservation_cancel_spec wRes).2.1 (by decide),
   (reservation_cancel_spec wResCancelled).2.2 (by decide)⟩

/-- Draining helper: with exactly `n` rooms available, `n` successive
`reserve_room` calls all succeed and leave `rooms_available = 0`. -/
theorem reserveRepeat_drain (n : Nat) :
    ∀ h : Hotel, h.rooms_available = (n : Int) →
      Hotel.reserveRepeat n h = (true, { h with rooms_available := 0 }) := by
  induction n with
  | zero =>
      intro h hh
      cases h
      simp_all [Hotel.reserveRepeat]
  | succ k ih =>
      intro h hh
      have hpos : 0 < h.rooms_available := by
        rw [hh]; exact_mod_cast Nat.succ_pos k
      have hres : h.reserve_room =
          (true, { h with rooms_available := h.rooms_available - 1 }) := by
        simp [Hotel.reserve_room, hpos]
      have hmid : ({ h with rooms_available := h.rooms_available - 1 } :
          Hotel).rooms_available = (k : Int) := by
        simp [hh]
      have ihx := ih _ hmid
      simp [Hotel.reserveRepeat, hres, ihx]

/-- C3: `reserve_room` succeeds (returning `true` and decrementing
`rooms_available` by one) exactly when `rooms_available > 0`, failing
without mutation otherwise; from `rooms_available = n`, `n` successive
calls all succeed, `rooms_available` reaches exactly `0`, and the next
call fails. -/
theorem reserve_room_spec (h : Hotel) (n : Nat)
    (hn : h.rooms_available = (n : Int)) :
    (h.reserve_room.fst = true ↔ 0 < h.rooms_available) ∧
    (0 < h.rooms_available →
      h.reserve_room =
        (true, { h with rooms_available := h.rooms_available - 1 })) ∧
    (¬ 0 < h.rooms_available → h.reserve_room = (false, h)) ∧
    Hotel.reserveRepeat n h = (true, { h with rooms_available := 0 }) ∧
    ((Hotel.reserveRepeat n h).snd.reserve_room).fst = false := by
  have hdrain := reserveRepeat_drain n h hn
  refine ⟨?_, ?_, ?_, hdrain, ?_⟩
  · by_cases hp : 0 < h.rooms_available <;> simp [Hotel.reserve_room, hp]
  · intro hp; simp [Hotel.reserve_room, hp]
  · intro hp; simp [Hotel.reserve_room, hp]
  · rw [hdrain]
    simp [Hotel.reserve_room]

/-- Witness for C3: the small hotel with 2 rooms available is drained by
two calls and the third call fails. -/
theorem reserve_room_spec_witness :
    Hotel.reserveRepeat 2 wHotelSmall =
      (true, { wHotelSmall with rooms_available := 0 }) ∧
    ((Hotel.reserveRepeat 2 wHotelSmall).snd.reserve_room).fst = false :=
  ⟨(reserve_room_spec wHotelSmall 2 (by decide)).2.2.2.1,
   (reserve_room_spec wHotelSmall 2 (by decide)).2.2.2.2⟩

/-- Filling helper: with a gap of exactly `k` occupied rooms, `k`
successive `cancel_reservation` calls all succeed and leave
`rooms_available = total_rooms`. -/
theorem cancelRepeat_fill (k : Nat) :
    ∀ h : Hotel, h.total_rooms - h.rooms_available = (k : Int) →
      Hotel.cancelRepeat k h =
        (true, { h with rooms_available := h.total_rooms }) := by
  induction k with
  | zero =>
      intro h hh
      have : h.rooms_available = h.total_rooms := by omega
      cases h
      simp_all [Hotel.cancelRepeat]
  | succ k ih =>
      intro h hh
      have hlt : h.rooms_available < h.total_rooms := by omega
      have hres : h.cancel_reservation =
          (true, { h with rooms_available := h.rooms_available + 1 }) := by
        simp [Hotel.cancel_reservation, hlt]
      have hmid : ({ h with rooms_available := h.rooms_available + 1 } :
            Hotel).total_rooms -
          ({ h with rooms_available := h.rooms_available + 1 } :
            Hotel).rooms_available = (k : Int) := by
        simp; omega
      have ihx := ih _ hmid
      simp [Hotel.cancelRepeat, hres, ihx]

/-- C4: `cancel_reservation` succeeds (returning `true` and incrementing
`rooms_available` by one) exactly when `rooms_available < total_rooms`,
failing without mutation otherwise; repeated calls succeed until
`rooms_available = total_rooms` and the next call fails. -/
theorem cancel_reservation_spec (h : Hotel) (k : Nat)
    (hk : h.total_rooms - h.rooms_available = (k : Int)) :
    (h.cancel_reservation.fst = true ↔
      h.rooms_available < h.total_rooms) ∧
    (h.rooms_available < h.total_rooms →
      h.cancel_reservation =
        (true, { h with rooms_available := h.rooms_available + 1 })) ∧
    (¬ h.rooms_available < h.total_rooms →
      h.cancel_reservation = (false, h)) ∧
    Hotel.cancelRepeat k h =
      (true, { h with rooms_available := h.total_rooms }) ∧
    ((Hotel.cancelRepeat k h).snd.cancel_reservation).fst = false := by
  have hfill := cancelRepeat_fill k h hk
  refine ⟨?_, ?_, ?_, hfill, ?_⟩
  · by_cases hp : h.rooms_available < h.total_rooms <;>
      simp [Hotel.cancel_reservation, hp]
  · intro hp; simp [Hotel.cancel_reservation, hp]
  · intro hp; simp [Hotel.cancel_reservation, hp]
  · rw [hfill]
    simp [Hotel.cancel_reservation]

/-- Witness for C4: the small hotel with 97 of 100 rooms available is
refilled by three calls and the fourth call fails. -/
theorem cancel_reservation_spec_witness :
    Hotel.cancelRepeat 3 wHotel97 =
      (true, { wHotel97 with rooms_available := wHotel97.total_rooms }) ∧
    ((Hotel.cancelRepeat 3 wHotel97).snd.cancel_reservation).fst = false :=
  ⟨(cancel_reservation_spec wHotel97 3 (by decide)).2.2.2.1,
   (cancel_reservation_spec wHotel97 3 (by decide)).2.2.2.2⟩

/-- C5: `Hotel.update` with a `total_rooms` value `n` returns `false` when
`n` is below the occupied count `total_rooms - rooms_available`; otherwise
it sets `total_rooms := n`, shifts `rooms_available` by the delta
`n - total_rooms` (preserving the occupied count), applies the other
supplied fields, and returns the result of `validate()` on the updated
hotel. -/
theorem hotel_update_spec (h : Hotel) (name location : Option String)
    (n : Int) (p : Option ℚ) :
    (n < h.total_rooms - h.rooms_available →
      (h.update name location (some n) p).fst = false) ∧
    (¬ n < h.total_rooms - h.rooms_available →
      (h.update name location (some n) p).snd.total_rooms = n ∧
      (h.update name location (some n) p).snd.rooms_available =
        h.rooms_available + (n - h.total_rooms) ∧
      (h.update name location (some n) p).snd.total_rooms -
          (h.update name location (some n) p).snd.rooms_available =
        h.total_rooms - h.rooms_available ∧
      (h.update name location (some n) p).snd.name = name.getD h.name ∧
      (h.update name location (some n) p).snd.location =
        location.getD h.location ∧
      (h.update name location (some n) p).snd.price_per_room =
        p.getD h.price_per_room ∧
      (h.update name location (some n) p).fst =
        (h.update name location (some n) p).snd.validate) := by
  constructor
  · intro hlt
    rcases name with _ | nm <;> rcases location with _ | loc <;>
      simp [Hotel.update, hlt]
  · intro hge
    rcases name with _ | nm <;> rcases location with _ | loc <;>
      rcases p with _ | pr <;>
        simp [Hotel.update, hge] <;> ring

/-- Witness for C5: on the scenario hotel with 97 of 100 rooms available,
shrinking to 1 room is rejected, while growing to 120 rooms yields 117
available. -/
theorem hotel_update_spec_witness :
    (wHotel97.update (some "A") none (some 1) (some 5)).fst = false ∧
    (wHotel97.update none none (some 120) none).snd.rooms_available =
      wHotel97.rooms_available + (120 - wHotel97.total_rooms) ∧
    (wHotel97.update none none (some 120) none).snd.total_rooms = 120 :=
  ⟨(hotel_update_spec wHotel97 (some "A") none 1 (some 5)).1 (by decide),
   ((hotel_update_spec wHotel97 none none 120 none).2 (by decide)).2.1,
   ((hotel_update_spec wHotel97 none none 120 none).2 (by decide)).1⟩

/-- C10: when `Hotel.update` rejects a `total_rooms` reduction below the
occupied count, it has already assigned any supplied `name` and
`location`, while a supplied `price_per_room` is not applied — the early
`return False` makes the rejection non-atomic. -/
theorem hotel_update_partial_mutation (h : Hotel)
    (name location : Option String) (n : Int) (p : Option ℚ)
    (hlt : n < h.total_rooms - h.rooms_available) :
    h.update name location (some n) p =
      (false, { h with name := name.getD h.name,
                       location := location.getD h.location }) := by
  rcases name with _ | nm <;> rcases location with _ | loc <;>
    simp [Hotel.update, hlt]

/-- Witness for C10: shrinking the scenario hotel to 1 room with a new
name, location and price returns `false`, with name and location already
changed and the price untouched. -/
theorem hotel_update_partial_mutation_witness :
    wHotel97.update (some "New") (some "Elsewhere") (some 1) (some 7) =
      (false, { wHotel97 with name := "New", location := "Elsewhere" }) :=
  hotel_update_partial_mutation wHotel97 (some "New") (some "Elsewhere") 1
    (some 7) (by decide)

/-- If no element of the list carries key `k`, the shared update loop
finds nothing to replace. -/
theorem replaceFirst_eq_none {α : Type} (key : α → String) (k : String)
    (d : α) (l : List α) (h : ∀ x ∈ l, key x ≠ k) :
    replaceFirst key k d l = none := by
  induction l with
  | nil => rfl
  | cons x xs ih =>
      have hx : (key x == k) = false := by
        simp [h x (List.mem_cons_self x xs)]
      simp [replaceFirst, hx,
        ih (fun y hy => h y (List.mem_cons_of_mem _ hy))]

/-- If no element of the list carries key `k`, the delete filter keeps
everything. -/
theorem filter_ne_eq_self {α : Type} (key : α → String) (k : String)
    (l : List α) (h : ∀ x ∈ l, key x ≠ k) :
    l.filter (fun x => key x != k) = l :=
  List.filter_eq_self.mpr fun x hx => by simp [h x hx]

/-- C6: on each of the three collections, creating an entity whose unique
key is already present fails, and updating or deleting an absent key
fails; in every such failure the stored list is returned unchanged. -/
theorem crud_failure_preserves_collection
    (h : Hotel) (hs : List HotelDict) (c : Customer) (cs : List CustomerDict)
    (r : Reservation) (rs : List ReservationDict) (k : String) :
    ((∃ d ∈ hs, d.hotel_id = h.hotel_id) → create_hotel h hs = (false, hs)) ∧
    ((∀ d ∈ hs, d.hotel_id ≠ k) →
      update_hotel k h hs = (false, hs) ∧ delete_hotel k hs = (false, hs)) ∧
    ((∃ d ∈ cs, d.customer_id = c.customer_id) →
      create_customer c cs = (false, cs)) ∧
    ((∀ d ∈ cs, d.customer_id ≠ k) →
      update_customer k c cs = (false, cs) ∧
        delete_customer k cs = (false, cs)) ∧
    ((∃ d ∈ rs, d.reservation_id = r.reservation_id) →
      create_reservation r rs = (false, rs)) ∧
    ((∀ d ∈ rs, d.reservation_id ≠ k) →
      update_reservation k r rs = (false, rs) ∧
        delete_reservation k rs = (false, rs)) := by
  refine ⟨?_, ?_, ?_, ?_, ?_, ?_⟩
  · intro hex
    have hany : hs.any (fun d => d.hotel_id == h.hotel_id) = true := by
      rcases hex with ⟨d, hd, he⟩
      exact List.any_eq_true.mpr ⟨d, hd, by simp [he]⟩
    by_cases hv : h.validate = true <;> simp [create_hotel, hv, hany]
  · intro hall
    refine ⟨?_, ?_⟩
    · have hnone := replaceFirst_eq_none HotelDict.hotel_id k h.to_dict hs hall
      by_cases hv : h.validate = true <;> simp [update_hotel, hv, hnone]
    · have hf := filter_ne_eq_self HotelDict.hotel_id k hs hall
      simp [delete_hotel, hf]
  · intro hex
    have hany : cs.any (fun d => d.customer_id == c.customer_id) = true := by
      rcases hex with ⟨d, hd, he⟩
      exact List.any_eq_true.mpr ⟨d, hd, by simp [he]⟩
    by_cases hv : c.validate = true <;> simp [create_customer, hv, hany]
  · intro hall
    refine ⟨?_, ?_⟩
    · have hnone :=
        replaceFirst_eq_none CustomerDict.customer_id k c.to_dict cs hall
      by_cases hv : c.validate = true <;> simp [update_customer, hv, hnone]
    · have hf := filter_ne_eq_self CustomerDict.customer_id k cs hall
      simp [delete_customer, hf]
  · intro hex
    have hany :
        rs.any (fun d => d.reservation_id == r.reservation_id) = true := by
      rcases hex with ⟨d, hd, he⟩
      exact List.any_eq_true.mpr ⟨d, hd, by simp [he]⟩
    by_cases hv : r.validate = true <;> simp [create_reservation, hv, hany]
  · intro hall
    refine ⟨?_, ?_⟩
    · have hnone :=
        replaceFirst_eq_none ReservationDict.reservation_id k r.to_dict rs
          hall
      by_cases hv : r.validate = true <;>
        simp [update_reservation, hv, hnone]
    · have hf := filter_ne_eq_self ReservationDict.reservation_id k rs hall
      simp [delete_reservation, hf]

/-- Witness for C6: one-element stores, a duplicate-key create, and
updates/deletes of the absent key `ZZZ`, all failing with the store
unchanged. -/
theorem crud_failure_preserves_collection_witness :
    create_hotel wHotel [wHotel.to_dict] = (false, [wHotel.to_dict]) ∧
    update_hotel "ZZZ" wHotel [wHotel.to_dict] =
      (false, [wHotel.to_dict]) ∧
    delete_hotel "ZZZ" [wHotel.to_dict] = (false, [wHotel.to_dict]) ∧
    create_customer wCustomer [wCustomer.to_dict] =
      (false, [wCustomer.to_dict]) ∧
    create_reservation wRes [wRes.to_dict] = (false, [wRes.to_dict]) ∧
    delete_reservation "ZZZ" [wRes.to_dict] = (false, [wRes.to_dict]) := by
  have base := crud_failure_preserves_collection wHotel [wHotel.to_dict]
    wCustomer [wCustomer.to_dict] wRes [wRes.to_dict] "ZZZ"
  exact ⟨base.1 (by decide),
    (base.2.1 (by decide)).1,
    (base.2.1 (by decide)).2,
    base.2.2.1 (by decide),
    base.2.2.2.2.1 (by decide),
    (base.2.2.2.2.2 (by decide)).2⟩

/-- If some element of the list carries key `k`, the delete filter
strictly shrinks the list. -/
theorem length_filter_lt_of_mem {α : Type} (key : α → String) (k : String)
    (l : List α) (hex : ∃ x ∈ l, key x = k) :
    (l.filter (fun x => key x != k)).length < l.length := by
  induction l with
  | nil => rcases hex with ⟨x, hx, _⟩; cases hx
  | cons x xs ih =>
      rcases hex with ⟨y, hy, hk⟩
      rcases List.mem_cons.mp hy with rfl | hmem
      · have hx : (key y != k) = false := by simp [hk]
        simp only [List.filter_cons, hx, if_neg Bool.false_ne_true,
          List.length_cons]
        exact Nat.lt_succ_of_le (List.length_filter_le _ _)
      · have hlt := ih ⟨y, hmem, hk⟩
        by_cases hx : (key x != k) = true <;>
          simp [List.filter_cons, hx] <;> omega

/-- C7 counterexample: with two stored hotel records sharing the key
`H001`, deletion removes both of them, not only the first. -/
theorem delete_first_only_counterexample :
    dupDict1.hotel_id = "H001" ∧ dupDict2.hotel_id = "H001" ∧
    delete_hotel "H001" [dupDict1, dupDict2] = (true, []) := by decide

/-- C7 (amended): on each collection, Delete(key) removes every record
whose unique key matches (keeping the remaining records in their original
order) and succeeds, when at least one record matches; it fails "not
found" and leaves the collection unchanged when none matches. -/
theorem delete_spec (k : String) (hs : List HotelDict)
    (cs : List CustomerDict) (rs : List ReservationDict) :
    ((∃ d ∈ hs, d.hotel_id = k) →
      delete_hotel k hs = (true, hs.filter (fun d => d.hotel_id != k))) ∧
    ((∀ d ∈ hs, d.hotel_id ≠ k) → delete_hotel k hs = (false, hs)) ∧
    ((∃ d ∈ cs, d.customer_id = k) →
      delete_customer k cs =
        (true, cs.filter (fun d => d.customer_id != k))) ∧
    ((∀ d ∈ cs, d.customer_id ≠ k) → delete_customer k cs = (false, cs)) ∧
    ((∃ d ∈ rs, d.reservation_id = k) →
      delete_reservation k rs =
        (true, rs.filter (fun d => d.reservation_id != k))) ∧
    ((∀ d ∈ rs, d.reservation_id ≠ k) →
      delete_reservation k rs = (false, rs)) := by
  refine ⟨?_, ?_, ?_, ?_, ?_, ?_⟩
  · intro hex
    have hlt := length_filter_lt_of_mem HotelDict.hotel_id k hs hex
    simp [delete_hotel, hlt]
  · intro hall
    have hf := filter_ne_eq_self HotelDict.hotel_id k hs hall
    simp [delete_hotel, hf]
  · intro hex
    have hlt := length_filter_lt_of_mem CustomerDict.customer_id k cs hex
    simp [delete_customer, hlt]
  · intro hall
    have hf := filter_ne_eq_self CustomerDict.customer_id k cs hall
    simp [delete_customer, hf]
  · intro hex
    have hlt := length_filter_lt_of_mem ReservationDict.reservation_id k rs
      hex
    simp [delete_reservation, hlt]
  · intro hall
    have hf := filter_ne_eq_self ReservationDict.reservation_id k rs hall
    simp [delete_reservation, hf]

/-- Witness for C7: deleting `H001` from the duplicate-key store removes
both matching records, and deleting from a store without the key fails. -/
theorem delete_spec_witness :
    delete_hotel "H001" [dupDict1, dupDict2] =
      (true, ([dupDict1, dupDict2].filter (fun d => d.hotel_id != "H001"))) ∧
    delete_customer "H001" [wCustomer.to_dict] =
      (false, [wCustomer.to_dict]) := by
  have base := delete_spec "H001" [dupDict1, dupDict2] [wCustomer.to_dict] []
  exact ⟨base.1 (by decide), base.2.2.2.1 (by decide)⟩

/-- The by-hotel query equals a filter-and-deserialize over the stored
records: raw key and status match, and the rebuilt reservation validates. -/
theorem get_by_hotel_eq (hid now : String) (rs : List ReservationDict) :
    get_reservations_by_hotel hid now rs =
      (rs.filter (fun d => d.hotel_id == hid && d.status == some "active" &&
        (Reservation.from_dict d now).validate)).map
        (fun d => Reservation.from_dict d now) := by
  induction rs with
  | nil => rfl
  | cons d ds ih =>
      by_cases h1 : (d.hotel_id == hid && d.status == some "active") = true
      · by_cases h2 : (Reservation.from_dict d now).validate = true <;>
          simp [get_reservations_by_hotel, List.filter_cons, h1, h2, ih]
      · simp [get_reservations_by_hotel, List.filter_cons, h1, ih]

/-- The by-customer query equals a filter-and-deserialize over the stored
records: raw key match and the rebuilt reservation validates. -/
theorem get_by_customer_eq (cid now : String) (rs : List ReservationDict) :
    get_reservations_by_customer cid now rs =
      (rs.filter (fun d => d.customer_id == cid &&
        (Reservation.from_dict d now).validate)).map
        (fun d => Reservation.from_dict d now) := by
  induction rs with
  | nil => rfl
  | cons d ds ih =>
      by_cases h1 : (d.customer_id == cid) = true
      · by_cases h2 : (Reservation.from_dict d now).validate = true <;>
          simp [get_reservations_by_customer, List.filter_cons, h1, h2, ih]
      · simp [get_reservations_by_customer, List.filter_cons, h1, ih]

/-- C8 counterexample: a stored record for hotel `H001` with status
`active` whose `check_in` does not parse is skipped by the by-hotel
query, so the query does not return every matching active stored
record. -/
theorem filtered_reads_counterexample :
    badResDict.hotel_id = "H001" ∧ badResDict.status = some "active" ∧
    get_reservations_by_hotel "H001" "t0" [badResDict] = [] := by decide

/-- C8 (amended): the by-hotel query returns exactly the stored records
whose `hotel_id` matches, whose `status` is `active`, and whose rebuilt
reservation passes validation; the by-customer query returns all records
whose `customer_id` matches and whose rebuilt reservation passes
validation, regardless of status; after cancelling one of two
reservations for `H001`, the by-hotel query returns exactly the one
still active. -/
theorem filtered_reads_spec (hid cid now : String)
    (rs : List ReservationDict) :
    (get_reservations_by_hotel hid now rs =
      (rs.filter (fun d => d.hotel_id == hid && d.status == some "active" &&
        (Reservation.from_dict d now).validate)).map
        (fun d => Reservation.from_dict d now)) ∧
    (get_reservations_by_customer cid now rs =
      (rs.filter (fun d => d.customer_id == cid &&
        (Reservation.from_dict d now).validate)).map
        (fun d => Reservation.from_dict d now)) ∧
    get_reservations_by_hotel "H001" "t0"
        [wRes.to_dict, wRes2.cancel.snd.to_dict] =
      [Reservation.from_dict wRes.to_dict "t0"] :=
  ⟨get_by_hotel_eq hid now rs, get_by_customer_eq cid now rs, by decide⟩

end HotelSystem
